import Mathlib

/-
  Verification development for the AthenaQueryClient repository
  (src/athena-query-client.ts).

  The single source file defines a class `AthenaQueryClient` with:
    - a constructor applying defaults (workGroup "primary", result-reuse
      enabled with MaxAgeInMinutes 60) unless overridden;
    - `query(sqlQuery)`: builds a StartQueryExecution input from the client
      configuration, submits it, and delegates to
      `checkQueryExequtionStateAndGetData`;
    - `checkQueryExequtionStateAndGetData(QueryExecutionId)`: polls
      GetQueryExecution; on QUEUED/RUNNING sleeps 1000 ms and recurses; on
      SUCCEEDED calls `getQueryResults`; on FAILED throws
      `new Error("Query failed: " + StateChangeReason)`; on CANCELLED throws
      `new Error("Query was cancelled")`;
    - `getQueryResults(QueryExecutionId)`: a do/while loop fetching result
      pages, sending the previous response's NextToken when it is truthy,
      accumulating rows, looping while the token is truthy, then `mapData`;
    - `mapData(data)`: treats Rows[0] as the header (column names =
      VarCharValue of each header cell), and for every later row builds an
      object assigning `obj[columns[i]] = cell.VarCharValue || ""` per cell.

  The external service is modelled by the finite sequence of responses it
  returns: a list of status responses (one per poll, in order) and a list
  of result pages (one per fetch, in order).  Observable actions (status
  poll, sleep, result fetch with its request token) are recorded in an
  event trace.  JavaScript runtime behaviour relevant to the code is
  modelled explicitly: truthiness tests on strings ("" is falsy), property
  access on `undefined` raising a TypeError, the property key coercion
  String(undefined) = "undefined", and object assignment that updates an
  existing key in place or appends a new key in insertion order (the
  modelled column names are plain string keys, not array indices).
-/

namespace Athena

/-- Execution states of the service, `QueryExecutionState` in the SDK. -/
inductive QueryExecutionState where
  | QUEUED
  | RUNNING
  | SUCCEEDED
  | FAILED
  | CANCELLED
  deriving DecidableEq, Repr

/-- One GetQueryExecution response: `QueryExecution.Status` with its
`State` and optional `StateChangeReason`. -/
structure QueryStatus where
  State : QueryExecutionState
  StateChangeReason : Option String
  deriving DecidableEq, Repr

/-- A result-row cell, modelled by its optional `VarCharValue`. -/
abbrev Cell := Option String

/-- A raw result row: the `Data` array of cells. -/
structure Row where
  Data : List Cell
  deriving DecidableEq, Repr

/-- One GetQueryResults response: its rows and optional `NextToken`. -/
structure Page where
  Rows : List Row
  NextToken : Option String
  deriving DecidableEq, Repr

/-- Errors a `query()` call can surface: a thrown `new Error(msg)` from the
code itself, or a runtime TypeError raised by the JavaScript engine. -/
inductive JsError where
  | error (msg : String)
  | typeError (msg : String)
  deriving DecidableEq, Repr

/-- A mapped record: a JavaScript object as an insertion-ordered list of
key/value pairs with unique keys. -/
abbrev Record := List (String × String)

/-- JavaScript object assignment obj[k] = v: updates the value of an
existing key in place, otherwise appends the new key at the end. -/
def objSet : Record → String → String → Record
  | [], k, v => [(k, v)]
  | (a, b) :: rest, k, v =>
    if a = k then (k, v) :: rest else (a, b) :: objSet rest k v

/-- JavaScript object read obj[k], `none` when the key is absent. -/
def objGet : Record → String → Option String
  | [], _ => none
  | (a, b) :: rest, k => if a = k then some b else objGet rest k

/-- The property key `columns[i]` used by mapData: the header cell's string
when present, and the coerced key "undefined" when the header cell has no
VarCharValue or the index is past the end of the header. -/
def keyAt (columns : List Cell) (i : Nat) : String :=
  match columns.getD i none with
  | some s => s
  | none => "undefined"

/-- The stored field value: `value.VarCharValue` when truthy, else "". -/
def cellVal : Cell → String
  | some s => if s ≠ "" then s else ("")
  | none => ("")

/-- The `item.Data.forEach((value, i) => ...)` loop of mapData: assign
`obj[columns[i]] = cellVal value` for each cell, from index `i` on. -/
def buildObj (columns : List Cell) : Nat → Record → List Cell → Record
  | _, obj, [] => obj
  | i, obj, c :: cs =>
    buildObj columns (i + 1) (objSet obj (keyAt columns i) (cellVal c)) cs

/-- Mapping of one data row to a record, given the header columns. -/
def mapRow (columns : List Cell) (r : Row) : Record :=
  buildObj columns 0 [] r.Data

/-- The argument of mapData, `{ Rows: allRows }`. -/
structure ResultSet where
  Rows : List Row
  deriving DecidableEq, Repr

/-- mapData: `data.Rows[0].Data` gives the column names (on an empty Rows
array, `data.Rows[0]` is `undefined` and reading `.Data` raises a
TypeError); every subsequent row is mapped to a record, the header row
itself skipped by the `if (i === 0) return` guard. -/
def mapData (data : ResultSet) : Except JsError (List Record) :=
  match data.Rows with
  | [] => .error (.typeError ("Cannot read properties of undefined (reading Data)"))
  | header :: rest => .ok (rest.map fun item => mapRow header.Data item)

/-- Observable actions of one `query()` run against the service. -/
inductive Event where
  | getExecution (resp : QueryStatus)
  | sleep (ms : Nat)
  | getResults (tok : Option String)
  deriving DecidableEq, Repr

/-- JavaScript truthiness of the optional NextToken string:
`undefined` and "" are falsy. -/
def tokenTruthy : Option String → Bool
  | none => false
  | some s => decide (s ≠ "")

/-- The token actually sent in a GetQueryResults request:
`...(nextToken && { NextToken: nextToken })` spreads the token only when
it is truthy. -/
def reqTok (t : Option String) : Option String :=
  if tokenTruthy t then t else none

/-- The do/while loop of getQueryResults, consuming the service's pages in
request order: fetch a page (recording the request token), append its rows
to the accumulator, and continue with the response token while that token
is truthy.  `none` means the loop requested more pages than the modelled
service response list provides. -/
def resultsLoop : Option String → List Row → List Event → List Page →
    Option (List Event × List Row)
  | _, _, _, [] => none
  | tok, acc, trace, page :: rest =>
    if tokenTruthy page.NextToken then
      resultsLoop page.NextToken (acc ++ page.Rows)
        (trace ++ [Event.getResults (reqTok tok)]) rest
    else some (trace ++ [Event.getResults (reqTok tok)], acc ++ page.Rows)

/-- getQueryResults: run the pagination loop from no token and an empty
accumulator, then map the accumulated rows. -/
def getQueryResults (pages : List Page) :
    Option (List Event × Except JsError (List Record)) :=
  (resultsLoop none [] [] pages).map fun r => (r.1, mapData ⟨r.2⟩)

/-- The polling recursion of checkQueryExequtionStateAndGetData, consuming
the service's status responses in order: poll, and while the state is
QUEUED or RUNNING sleep 1000 ms and poll again; stop at the first other
state.  `none` means the loop polled more often than the modelled service
response list provides. -/
def pollLoop : List Event → List QueryStatus → Option (List Event × QueryStatus)
  | _, [] => none
  | trace, st :: rest =>
    if st.State = .QUEUED ∨ st.State = .RUNNING then
      pollLoop (trace ++ [Event.getExecution st, Event.sleep 1000]) rest
    else some (trace ++ [Event.getExecution st], st)

/-- Template-literal rendering of the optional StateChangeReason. -/
def reasonStr : Option String → String
  | some s => s
  | none => "undefined"

/-- The terminal dispatch of checkQueryExequtionStateAndGetData, reached
with the first non-QUEUED/RUNNING status: SUCCEEDED fetches and maps the
results, FAILED throws "Query failed: " + reason, CANCELLED throws
"Query was cancelled". -/
def terminalAction (pages : List Page) (st : QueryStatus) (trace : List Event) :
    Option (List Event × Except JsError (List Record)) :=
  if st.State = .SUCCEEDED then
    (resultsLoop none [] trace pages).map fun r => (r.1, mapData ⟨r.2⟩)
  else if st.State = .FAILED then
    some (trace, .error (.error ("Query failed: " ++ reasonStr st.StateChangeReason)))
  else
    some (trace, .error (.error ("Query was cancelled")))

/-- checkQueryExequtionStateAndGetData: poll to the first terminal status,
then act on it. -/
def checkQueryExequtionStateAndGetData (pages : List Page)
    (statuses : List QueryStatus) :
    Option (List Event × Except JsError (List Record)) :=
  (pollLoop [] statuses).bind fun r => terminalAction pages r.2 r.1

/-- `ResultReuseByAgeConfiguration` of the SDK. -/
structure ResultReuseByAgeConfiguration where
  Enabled : Bool
  MaxAgeInMinutes : Option Nat
  deriving DecidableEq, Repr

/-- `ResultReuseConfiguration` wrapper as in the source interface. -/
structure ResultReuseConfiguration where
  ResultReuseByAgeConfiguration : ResultReuseByAgeConfiguration
  deriving DecidableEq, Repr

/-- `AthenaQueryClientConfig` (the opaque AWS `ClientConfig` is omitted:
it only constructs the transport client). -/
structure AthenaQueryClientConfig where
  Database : String
  Catalog : String
  WorkGroup : Option String
  ResultReuseConfiguration : Option ResultReuseConfiguration
  deriving DecidableEq, Repr

/-- The configuration state of a constructed `AthenaQueryClient`. -/
structure AthenaQueryClient where
  database : String
  catalog : String
  workGroup : String
  resultReuseConfiguration : ResultReuseConfiguration
  deriving DecidableEq, Repr

/-- The field initializer of `resultReuseConfiguration`:
enabled, max age 60 minutes. -/
def defaultResultReuseConfiguration : ResultReuseConfiguration :=
  ⟨⟨true, some 60⟩⟩

/-- The constructor: take Database and Catalog from the config; overwrite
the initializers "primary" and the default reuse configuration only when
`if (config.WorkGroup)` and `if (config.ResultReuseConfiguration)` are
truthy (an empty workgroup string is falsy; a present object is truthy). -/
def mkClient (config : AthenaQueryClientConfig) : AthenaQueryClient :=
  ⟨config.Database, config.Catalog,
    match config.WorkGroup with
    | some w => if w ≠ "" then w else ("primary")
    | none => "primary",
    match config.ResultReuseConfiguration with
    | some rc => rc
    | none => defaultResultReuseConfiguration⟩

/-- The StartQueryExecution input built by query(). -/
structure QueryExecutionInput where
  QueryString : String
  Database : String
  Catalog : String
  WorkGroup : String
  ResultReuseConfiguration : ResultReuseConfiguration
  deriving DecidableEq, Repr

/-- The `queryExecutionInput` object literal of query(). -/
def queryExecutionInput (c : AthenaQueryClient) (sqlQuery : String) :
    QueryExecutionInput :=
  ⟨sqlQuery, c.database, c.catalog, c.workGroup, c.resultReuseConfiguration⟩

/-- query(): submit the built input, then poll and fetch.  The submission
input and the rest of the run are returned side by side. -/
def query (c : AthenaQueryClient) (sqlQuery : String)
    (statuses : List QueryStatus) (pages : List Page) :
    QueryExecutionInput × Option (List Event × Except JsError (List Record)) :=
  (queryExecutionInput c sqlQuery, checkQueryExequtionStateAndGetData pages statuses)

/-- The poll-phase trace of a run observing the statuses `pre ++ [t]`:
one poll per status, a 1000 ms sleep after each non-terminal one. -/
def pollTraceOf (pre : List QueryStatus) (t : QueryStatus) : List Event :=
  (pre.map fun s => [Event.getExecution s, Event.sleep 1000]).flatten ++
    [Event.getExecution t]

/-- Whether a trace contains any result-fetch request. -/
def hasGetResults : List Event → Bool
  | [] => false
  | Event.getResults _ :: _ => true
  | _ :: es => hasGetResults es

/-- Whether a run outcome is an Error deliberately thrown by the code
(as opposed to a runtime TypeError or a success value). -/
def isDeliberateThrow : Except JsError (List Record) → Bool
  | .error (.error _) => true
  | _ => false

/-- The error thrown at a FAILED or CANCELLED terminal status. -/
def terminalError (t : QueryStatus) : JsError :=
  if t.State = .FAILED then
    .error ("Query failed: " ++ reasonStr t.StateChangeReason)
  else
    .error ("Query was cancelled")

/-! ### Helper lemmas -/

lemma objGet_objSet_self (obj : Record) (k v : String) :
    objGet (objSet obj k v) k = some v := by
  induction obj with
  | nil => simp [objSet, objGet]
  | cons p rest ih =>
    obtain ⟨a, b⟩ := p
    by_cases h : a = k
    · simp [objSet, objGet, h]
    · simp [objSet, objGet, h, ih]

lemma objSet_length_le (obj : Record) (k v : String) :
    (objSet obj k v).length ≤ obj.length + 1 := by
  induction obj with
  | nil => simp [objSet]
  | cons p rest ih =>
    obtain ⟨a, b⟩ := p
    by_cases h : a = k
    · simp [objSet, h]
    · simp only [objSet, if_neg h, List.length_cons]
      omega

lemma buildObj_nil (cols : List Cell) (i : Nat) (obj : Record) :
    buildObj cols i obj [] = obj := rfl

lemma buildObj_cons (cols : List Cell) (i : Nat) (obj : Record) (c : Cell)
    (cs : List Cell) :
    buildObj cols i obj (c :: cs) =
      buildObj cols (i + 1) (objSet obj (keyAt cols i) (cellVal c)) cs := rfl

lemma buildObj_concat (cs : List Cell) (c : Cell) (cols : List Cell) :
    ∀ (i : Nat) (obj : Record),
    buildObj cols i obj (cs ++ [c]) =
      objSet (buildObj cols i obj cs) (keyAt cols (i + cs.length)) (cellVal c) := by
  induction cs with
  | nil => intro i obj; simp [buildObj_cons, buildObj_nil]
  | cons d cs ih =>
    intro i obj
    rw [List.cons_append, buildObj_cons, ih (i + 1), buildObj_cons]
    have hidx : i + 1 + cs.length = i + (d :: cs).length := by
      simp only [List.length_cons]; omega
    rw [hidx]

lemma buildObj_length_le (cs : List Cell) (cols : List Cell) :
    ∀ (i : Nat) (obj : Record),
    (buildObj cols i obj cs).length ≤ obj.length + cs.length := by
  induction cs with
  | nil => intro i obj; simp [buildObj]
  | cons c cs ih =>
    intro i obj
    have h1 := ih (i + 1) (objSet obj (keyAt cols i) (cellVal c))
    have h2 := objSet_length_le obj (keyAt cols i) (cellVal c)
    simp only [buildObj, List.length_cons]
    omega

lemma getD_take (cols : List Cell) :
    ∀ (n i : Nat), i < n → (cols.take n).getD i none = cols.getD i none := by
  induction cols with
  | nil => intro n i _; simp
  | cons c cs ih =>
    intro n i h
    cases n with
    | zero => omega
    | succ m =>
      cases i with
      | zero => simp
      | succ j => simpa using ih m j (by omega)

lemma keyAt_take (cols : List Cell) (n i : Nat) (h : i < n) :
    keyAt (cols.take n) i = keyAt cols i := by
  unfold keyAt
  rw [getD_take cols n i h]

lemma keyAt_ge (cols : List Cell) (i : Nat) (h : cols.length ≤ i) :
    keyAt cols i = "undefined" := by
  unfold keyAt
  rw [List.getD_eq_default _ _ h]

lemma buildObj_take (cs : List Cell) (cols : List Cell) (n : Nat) :
    ∀ (i : Nat) (obj : Record), i + cs.length ≤ n →
    buildObj cols i obj cs = buildObj (cols.take n) i obj cs := by
  induction cs with
  | nil => intro i obj _; simp [buildObj]
  | cons c cs ih =>
    intro i obj h
    simp only [List.length_cons] at h
    rw [buildObj, buildObj, keyAt_take cols n i (by omega), ih (i + 1) _ (by omega)]

lemma pollLoop_spec (pre : List QueryStatus) (t : QueryStatus) :
    ∀ (trace : List Event),
    (∀ s ∈ pre, s.State = .QUEUED ∨ s.State = .RUNNING) →
    ¬(t.State = .QUEUED ∨ t.State = .RUNNING) →
    pollLoop trace (pre ++ [t]) = some (trace ++ pollTraceOf pre t, t) := by
  induction pre with
  | nil =>
    intro trace _ ht
    simp [pollLoop, pollTraceOf, ht]
  | cons s rest ih =>
    intro trace hpre ht
    have hs : s.State = .QUEUED ∨ s.State = .RUNNING := hpre s (by simp)
    have hrest : ∀ x ∈ rest, x.State = .QUEUED ∨ x.State = .RUNNING :=
      fun x hx => hpre x (by simp [hx])
    rw [List.cons_append, pollLoop, if_pos hs,
      ih (trace ++ [Event.getExecution s, Event.sleep 1000]) hrest ht]
    simp [pollTraceOf]

lemma reqTok_truthy (t : Option String) (h : tokenTruthy t = true) :
    reqTok t = t := by
  simp [reqTok, h]

lemma resultsLoop_spec (ps : List Page) (lastp : Page) :
    ∀ (tok : Option String) (acc : List Row) (trace : List Event),
    (∀ p ∈ ps, tokenTruthy p.NextToken = true) →
    tokenTruthy lastp.NextToken = false →
    resultsLoop tok acc trace (ps ++ [lastp]) =
      some (trace ++ Event.getResults (reqTok tok) ::
              ps.map (fun p => Event.getResults p.NextToken),
            acc ++ ((ps ++ [lastp]).map Page.Rows).flatten) := by
  induction ps with
  | nil =>
    intro tok acc trace _ hlast
    simp [resultsLoop, hlast]
  | cons p ps ih =>
    intro tok acc trace hps hlast
    have hp : tokenTruthy p.NextToken = true := hps p (by simp)
    have hrest : ∀ x ∈ ps, tokenTruthy x.NextToken = true :=
      fun x hx => hps x (by simp [hx])
    rw [List.cons_append, resultsLoop, if_pos hp,
      ih p.NextToken (acc ++ p.Rows) (trace ++ [Event.getResults (reqTok tok)])
        hrest hlast, reqTok_truthy p.NextToken hp]
    simp

lemma pollTraceOf_cons (s : QueryStatus) (rest : List QueryStatus)
    (t : QueryStatus) :
    pollTraceOf (s :: rest) t =
      Event.getExecution s :: Event.sleep 1000 :: pollTraceOf rest t := by
  simp [pollTraceOf]

lemma hasGetResults_pollTraceOf (pre : List QueryStatus) (t : QueryStatus) :
    hasGetResults (pollTraceOf pre t) = false := by
  induction pre with
  | nil => simp [pollTraceOf, hasGetResults]
  | cons s rest ih =>
    rw [pollTraceOf_cons]
    simpa [hasGetResults] using ih

/-! ### Claims -/

/-- C1 counterexample: on zero rows, mapData does not fail with a typed
EmptyResultSet error; it fails with a runtime TypeError from reading the
Data property of the undefined header row — no Error is deliberately
thrown on that path. -/
theorem C1_counterexample :
    mapData ⟨[]⟩ =
      .error (.typeError ("Cannot read properties of undefined (reading Data)")) ∧
    isDeliberateThrow (mapData ⟨[]⟩) = false :=
  ⟨rfl, rfl⟩

/-- C1 amended: for the empty input (zero rows), mapData fails rather than
returning a value, but with a runtime TypeError raised by accessing
`data.Rows[0].Data` on an empty array — not with a typed EmptyResultSet
error, which the code never defines or throws. -/
theorem C1_empty_rows_typeError :
    mapData ⟨[]⟩ =
      .error (.typeError ("Cannot read properties of undefined (reading Data)")) :=
  rfl

/-- C2 counterexample: with header ["a","b"] and the single shorter data
row ["1"], the produced record is {a:"1"} — the trailing header column
"b" is absent from the record instead of being present with value "". -/
theorem C2_counterexample :
    mapData ⟨[Row.mk [some ("a"), some ("b")], Row.mk [some ("1")]]⟩ =
      .ok [[("a", "1")]] ∧
    objGet [("a", "1")] ("b") = none :=
  ⟨rfl, rfl⟩

/-- C2 amended: for every data row strictly shorter than the header, the
record is built from the row's cells only: it equals the record obtained
with the header truncated to the row's length (the unmatched trailing
header columns are ignored, not filled with empty strings), and it has at
most one field per row cell. -/
theorem C2_short_row_ignores_trailing (columns : List Cell) (r : Row)
    (_h : r.Data.length < columns.length) :
    mapRow columns r = mapRow (columns.take r.Data.length) r ∧
    (mapRow columns r).length ≤ r.Data.length := by
  constructor
  · unfold mapRow
    exact buildObj_take r.Data columns r.Data.length 0 [] (by omega)
  · have hlen := buildObj_length_le r.Data columns 0 []
    simpa [mapRow] using hlen

/-- C2 witness. -/
theorem C2_witness :
    mapRow [some ("a"), some ("b")] (Row.mk [some ("1")]) =
      mapRow ([some ("a"), some ("b")].take (Row.mk [some ("1")]).Data.length)
        (Row.mk [some ("1")]) ∧
    (mapRow [some ("a"), some ("b")] (Row.mk [some ("1")])).length ≤
      (Row.mk [some ("1")]).Data.length :=
  C2_short_row_ignores_trailing _ _ (by decide)

/-- C3 counterexample: at terminal FAILED with reason "syntax error" the
thrown error message is "Query failed: syntax error", not the
service-supplied reason verbatim — the code prepends a fixed prefix. -/
theorem C3_counterexample :
    checkQueryExequtionStateAndGetData []
        [QueryStatus.mk .FAILED (some ("syntax error"))] =
      some ([Event.getExecution (QueryStatus.mk .FAILED (some ("syntax error")))],
        .error (.error ("Query failed: syntax error"))) ∧
    ("Query failed: syntax error") ≠ ("syntax error") := by
  refine ⟨rfl, ?_⟩
  decide

/-- C3 amended: whenever the polled execution reaches terminal FAILED with
reason r, query() fails with an Error whose message is "Query failed: "
followed by r (the reason is embedded after a fixed prefix, not surfaced
verbatim); whenever it reaches CANCELLED, query() fails with the Error
"Query was cancelled". -/
theorem C3_failure_errors (pre : List QueryStatus) (pages : List Page)
    (r : String) (rc : Option String)
    (hpre : ∀ s ∈ pre, s.State = .QUEUED ∨ s.State = .RUNNING) :
    checkQueryExequtionStateAndGetData pages
        (pre ++ [QueryStatus.mk .FAILED (some r)]) =
      some (pollTraceOf pre (QueryStatus.mk .FAILED (some r)),
        .error (.error ("Query failed: " ++ r))) ∧
    checkQueryExequtionStateAndGetData pages
        (pre ++ [QueryStatus.mk .CANCELLED rc]) =
      some (pollTraceOf pre (QueryStatus.mk .CANCELLED rc),
        .error (.error ("Query was cancelled"))) := by
  constructor
  · have h := pollLoop_spec pre (QueryStatus.mk .FAILED (some r)) [] hpre (by simp)
    simp [checkQueryExequtionStateAndGetData, h, terminalAction, reasonStr]
  · have h := pollLoop_spec pre (QueryStatus.mk .CANCELLED rc) [] hpre (by simp)
    simp [checkQueryExequtionStateAndGetData, h, terminalAction]

/-- C3 witness. -/
theorem C3_witness :
    checkQueryExequtionStateAndGetData []
        ([QueryStatus.mk .QUEUED none] ++
          [QueryStatus.mk .FAILED (some ("syntax error"))]) =
      some (pollTraceOf [QueryStatus.mk .QUEUED none]
          (QueryStatus.mk .FAILED (some ("syntax error"))),
        .error (.error ("Query failed: " ++ ("syntax error")))) ∧
    checkQueryExequtionStateAndGetData []
        ([QueryStatus.mk .QUEUED none] ++ [QueryStatus.mk .CANCELLED none]) =
      some (pollTraceOf [QueryStatus.mk .QUEUED none]
          (QueryStatus.mk .CANCELLED none),
        .error (.error ("Query was cancelled"))) :=
  C3_failure_errors _ _ _ _ (by simp)

/-- C4: for every sequence of non-terminal statuses `pre` followed by a
terminal status `t`, the poll loop queries the status exactly once per
element of the sequence, in order, terminal observation included, with a
1000 ms sleep between consecutive queries and nothing else in between, and
the overall operation acts on exactly the terminal status it observed. -/
theorem C4_poll_once_per_status (pre : List QueryStatus) (t : QueryStatus)
    (pages : List Page)
    (hpre : ∀ s ∈ pre, s.State = .QUEUED ∨ s.State = .RUNNING)
    (ht : ¬(t.State = .QUEUED ∨ t.State = .RUNNING)) :
    pollLoop [] (pre ++ [t]) = some (pollTraceOf pre t, t) ∧
    checkQueryExequtionStateAndGetData pages (pre ++ [t]) =
      terminalAction pages t (pollTraceOf pre t) := by
  have h := pollLoop_spec pre t [] hpre ht
  refine ⟨by simpa using h, ?_⟩
  simp [checkQueryExequtionStateAndGetData, h]

/-- C4 witness. -/
theorem C4_witness :
    pollLoop [] ([QueryStatus.mk .QUEUED none, QueryStatus.mk .RUNNING none] ++
        [QueryStatus.mk .SUCCEEDED none]) =
      some (pollTraceOf [QueryStatus.mk .QUEUED none, QueryStatus.mk .RUNNING none]
          (QueryStatus.mk .SUCCEEDED none),
        QueryStatus.mk .SUCCEEDED none) ∧
    checkQueryExequtionStateAndGetData [Page.mk [Row.mk [some ("x")]] none]
        ([QueryStatus.mk .QUEUED none, QueryStatus.mk .RUNNING none] ++
          [QueryStatus.mk .SUCCEEDED none]) =
      terminalAction [Page.mk [Row.mk [some ("x")]] none]
        (QueryStatus.mk .SUCCEEDED none)
        (pollTraceOf [QueryStatus.mk .QUEUED none, QueryStatus.mk .RUNNING none]
          (QueryStatus.mk .SUCCEEDED none)) :=
  C4_poll_once_per_status _ _ _ (by simp) (by simp)

/-- C5 counterexample: two pages of which exactly the last carries no
continuation token, but the first page's token is the empty string: the
loop's truthiness test `while (nextToken)` treats "" as absent, so only
one fetch is issued and the second page's rows are never retrieved —
against the claimed 2 fetches and full concatenation. -/
theorem C5_counterexample :
    resultsLoop none [] []
        [Page.mk [Row.mk [some ("r1")]] (some ("")),
          Page.mk [Row.mk [some ("r2")]] none] =
      some ([Event.getResults none], [Row.mk [some ("r1")]]) ∧
    (Page.mk [Row.mk [some ("r1")]] (some (""))).NextToken ≠ none ∧
    (Page.mk [Row.mk [some ("r2")]] none).NextToken = none ∧
    [Page.mk [Row.mk [some ("r1")]] (some ("")),
      Page.mk [Row.mk [some ("r2")]] none].length = 2 := by
  refine ⟨rfl, by decide, rfl, rfl⟩

/-- C5 amended: for every sequence of n pages in which every page before
the last carries a truthy (non-empty) continuation token and the last
page's token is falsy (absent or empty), the pagination loop issues
exactly n fetch requests — the first with no token, each subsequent one
with the previous response's token — and accumulates exactly the
concatenation of the pages' row sequences in request order; getQueryResults
then maps that concatenation. -/
theorem C5_pagination (ps : List Page) (lastp : Page)
    (hps : ∀ p ∈ ps, tokenTruthy p.NextToken = true)
    (hlast : tokenTruthy lastp.NextToken = false) :
    resultsLoop none [] [] (ps ++ [lastp]) =
      some (Event.getResults none ::
          ps.map (fun p => Event.getResults p.NextToken),
        ((ps ++ [lastp]).map Page.Rows).flatten) ∧
    (Event.getResults none ::
        ps.map (fun p => Event.getResults p.NextToken)).length =
      (ps ++ [lastp]).length ∧
    getQueryResults (ps ++ [lastp]) =
      some (Event.getResults none ::
          ps.map (fun p => Event.getResults p.NextToken),
        mapData ⟨((ps ++ [lastp]).map Page.Rows).flatten⟩) := by
  have h := resultsLoop_spec ps lastp none [] [] hps hlast
  have h2 : resultsLoop none [] [] (ps ++ [lastp]) =
      some (Event.getResults none ::
          ps.map (fun p => Event.getResults p.NextToken),
        ((ps ++ [lastp]).map Page.Rows).flatten) := by
    simpa [reqTok, tokenTruthy] using h
  refine ⟨h2, by simp, ?_⟩
  simp [getQueryResults, h2]

/-- C5 witness. -/
theorem C5_witness :
    resultsLoop none [] []
        ([Page.mk [Row.mk [some ("1")]] (some ("tok"))] ++
          [Page.mk [Row.mk [some ("2")]] none]) =
      some (Event.getResults none ::
          [Page.mk [Row.mk [some ("1")]] (some ("tok"))].map
            (fun p => Event.getResults p.NextToken),
        (([Page.mk [Row.mk [some ("1")]] (some ("tok"))] ++
            [Page.mk [Row.mk [some ("2")]] none]).map Page.Rows).flatten) ∧
    (Event.getResults none ::
        [Page.mk [Row.mk [some ("1")]] (some ("tok"))].map
          (fun p => Event.getResults p.NextToken)).length =
      ([Page.mk [Row.mk [some ("1")]] (some ("tok"))] ++
        [Page.mk [Row.mk [some ("2")]] none]).length ∧
    getQueryResults
        ([Page.mk [Row.mk [some ("1")]] (some ("tok"))] ++
          [Page.mk [Row.mk [some ("2")]] none]) =
      some (Event.getResults none ::
          [Page.mk [Row.mk [some ("1")]] (some ("tok"))].map
            (fun p => Event.getResults p.NextToken),
        mapData ⟨(([Page.mk [Row.mk [some ("1")]] (some ("tok"))] ++
            [Page.mk [Row.mk [some ("2")]] none]).map Page.Rows).flatten⟩) :=
  C5_pagination _ _ (by decide) (by decide)

/-- C6: for every non-empty input of k rows, mapData succeeds with exactly
k - 1 records (the header row is never part of the output); in particular
a header-only input yields the empty record sequence, not an error. -/
theorem C6_one_record_per_data_row (header : Row) (rest : List Row) :
    ∃ recs, mapData ⟨header :: rest⟩ = .ok recs ∧
      recs.length + 1 = (header :: rest).length ∧
      mapData ⟨[header]⟩ = .ok [] :=
  ⟨rest.map (mapRow header.Data), rfl, by simp, rfl⟩

/-- C7: with header ["a","b"] and data rows ["1","2"] and ["3", absent],
mapData pairs each cell positionally with the header name, a present value
mapping to itself and an absent one to "", producing exactly the records
{a:"1", b:"2"} and {a:"3", b:""} in that order. -/
theorem C7_positional_pairing :
    mapData ⟨[Row.mk [some ("a"), some ("b")],
        Row.mk [some ("1"), some ("2")], Row.mk [some ("3"), none]]⟩ =
      .ok [[("a", "1"), ("b", "2")], [("a", "3"), ("b", "")]] :=
  rfl

/-- C8: whenever the polled execution reaches FAILED or CANCELLED after
any sequence of non-terminal statuses, the run raises the corresponding
error and its trace contains no result-page fetch request at all — no
records accompany the error, so no partial result sequence is returned. -/
theorem C8_no_fetch_on_failure (pre : List QueryStatus) (t : QueryStatus)
    (pages : List Page)
    (hpre : ∀ s ∈ pre, s.State = .QUEUED ∨ s.State = .RUNNING)
    (ht : t.State = .FAILED ∨ t.State = .CANCELLED) :
    checkQueryExequtionStateAndGetData pages (pre ++ [t]) =
      some (pollTraceOf pre t, .error (terminalError t)) ∧
    hasGetResults (pollTraceOf pre t) = false := by
  have hnt : ¬(t.State = .QUEUED ∨ t.State = .RUNNING) := by
    rcases ht with h | h <;> simp [h]
  have hp := pollLoop_spec pre t [] hpre hnt
  refine ⟨?_, hasGetResults_pollTraceOf pre t⟩
  rcases ht with h | h <;>
    simp [checkQueryExequtionStateAndGetData, hp, terminalAction, terminalError, h]

/-- C8 witness. -/
theorem C8_witness :
    checkQueryExequtionStateAndGetData [Page.mk [Row.mk [some ("x")]] none]
        ([QueryStatus.mk .RUNNING none] ++
          [QueryStatus.mk .FAILED (some ("boom"))]) =
      some (pollTraceOf [QueryStatus.mk .RUNNING none]
          (QueryStatus.mk .FAILED (some ("boom"))),
        .error (terminalError (QueryStatus.mk .FAILED (some ("boom"))))) ∧
    hasGetResults (pollTraceOf [QueryStatus.mk .RUNNING none]
        (QueryStatus.mk .FAILED (some ("boom")))) = false :=
  C8_no_fetch_on_failure _ _ _ (by simp) (by simp)

/-- C9 counterexample: a client constructed with the explicit workgroup
override "" does not get its workgroup replaced: the constructor's
truthiness guard `if (config.WorkGroup)` ignores the empty string and the
default "primary" is kept. -/
theorem C9_counterexample :
    (mkClient (AthenaQueryClientConfig.mk ("db") ("cat") (some ("")) none)).workGroup =
      ("primary") ∧
    ("primary") ≠ ("") :=
  ⟨rfl, by decide⟩

/-- C9 amended: without overrides the workgroup is "primary" and the
result-reuse policy is enabled with max age 60 minutes; a supplied
result-reuse override and a supplied non-empty workgroup override replace
the defaults (an empty-string workgroup is ignored by the truthiness
guard); and every submission built by query() uses exactly the client's
configured database, catalog, workgroup and result-reuse policy. -/
theorem C9_defaults_and_submission (db cat w sql : String)
    (rr : ResultReuseConfiguration) (c : AthenaQueryClient) (hw : w ≠ "") :
    mkClient (AthenaQueryClientConfig.mk db cat none none) =
      AthenaQueryClient.mk db cat ("primary") defaultResultReuseConfiguration ∧
    defaultResultReuseConfiguration =
      ResultReuseConfiguration.mk (ResultReuseByAgeConfiguration.mk true (some 60)) ∧
    mkClient (AthenaQueryClientConfig.mk db cat (some w) (some rr)) =
      AthenaQueryClient.mk db cat w rr ∧
    queryExecutionInput c sql =
      QueryExecutionInput.mk sql c.database c.catalog c.workGroup
        c.resultReuseConfiguration := by
  refine ⟨rfl, rfl, ?_, rfl⟩
  simp [mkClient, hw]

/-- C9 witness. -/
theorem C9_witness :
    mkClient (AthenaQueryClientConfig.mk ("d") ("c") none none) =
      AthenaQueryClient.mk ("d") ("c") ("primary") defaultResultReuseConfiguration ∧
    defaultResultReuseConfiguration =
      ResultReuseConfiguration.mk (ResultReuseByAgeConfiguration.mk true (some 60)) ∧
    mkClient (AthenaQueryClientConfig.mk ("d") ("c") (some ("wg"))
        (some (ResultReuseConfiguration.mk
          (ResultReuseByAgeConfiguration.mk false none)))) =
      AthenaQueryClient.mk ("d") ("c") ("wg")
        (ResultReuseConfiguration.mk (ResultReuseByAgeConfiguration.mk false none)) ∧
    queryExecutionInput
        (AthenaQueryClient.mk ("d") ("c") ("wg") defaultResultReuseConfiguration)
        ("SELECT 1") =
      QueryExecutionInput.mk ("SELECT 1")
        (AthenaQueryClient.mk ("d") ("c") ("wg") defaultResultReuseConfiguration).database
        (AthenaQueryClient.mk ("d") ("c") ("wg") defaultResultReuseConfiguration).catalog
        (AthenaQueryClient.mk ("d") ("c") ("wg") defaultResultReuseConfiguration).workGroup
        (AthenaQueryClient.mk ("d") ("c") ("wg")
          defaultResultReuseConfiguration).resultReuseConfiguration :=
  C9_defaults_and_submission _ _ _ _ _ _ (by decide)

/-- C10: for every data row strictly longer than the header, the property
key used for each extra cell is the coerced string "undefined", so the
extra cells collapse into the single field "undefined" whose final value
is the last extra cell's value — the empty string when that cell is
absent. -/
theorem C10_extra_cells_collapse (columns : List Cell) (r : Row)
    (h : columns.length < r.Data.length) :
    objGet (mapRow columns r) ("undefined") = r.Data.getLast?.map cellVal := by
  unfold mapRow
  rcases List.eq_nil_or_concat r.Data with hnil | ⟨cs, c, hcc⟩
  · rw [hnil] at h
    simp at h
  · rw [hcc] at h ⊢
    rw [List.concat_eq_append] at h ⊢
    rw [buildObj_concat]
    have hlen : columns.length ≤ 0 + cs.length := by
      simp only [List.length_append, List.length_cons, List.length_nil] at h
      omega
    rw [keyAt_ge columns (0 + cs.length) hlen, objGet_objSet_self]
    simp

/-- C10 witness. -/
theorem C10_witness :
    objGet (mapRow [some ("a")] (Row.mk [some ("1"), some ("2"), none]))
        ("undefined") =
      (Row.mk [some ("1"), some ("2"), none]).Data.getLast?.map cellVal :=
  C10_extra_cells_collapse _ _ (by decide)

end Athena
